import Mathlib

/-!
Shallow embedding of ncnn's compute-pipeline cache (src/pipelinecache.cpp,
the NCNN_VULKAN branch with the precompiled-shader table, i.e. the
`#else // NCNN_VULKAN_ONLINE_SPIRV` path), together with proofs of the
specification claims about it.

Machine integers are modelled as `Nat` with explicit `% 2 ^ 32` where the C
code relies on `uint32_t` wrap-around.  Vulkan handles are modelled as `Nat`
with `0` standing for `VK_NULL_HANDLE`.  The `VulkanDevice` collaborator is
an abstract record of its capability flags and its create/compile/reflect
primitives; a primitive that can fail returns `Option` (with `none` for a
nonzero `ret`), and the handle-returning shader-module primitives return `0`
on failure exactly as in the C API.  Every cache operation additionally
returns a trace of the create/destroy primitive invocations it performed, so
that resource-lifecycle claims (rollback order, exactly-once destruction,
no leaked shader module) can be stated and proved.
-/

namespace NcnnPipelineCache

/-- Device capability flags read by pipelinecache.cpp (`vkdev->info.*`). -/
structure GpuInfo where
  bug_layout_binding_id_alias : Bool
  support_fp16_packed : Bool
  support_fp16_storage : Bool
  support_fp16_arithmetic : Bool
  support_VK_KHR_descriptor_update_template : Bool
deriving DecidableEq, Repr, Fintype

/-- The option flags of `ncnn::Option` that pipelinecache.cpp reads
(named `Opt` because `Option` is taken by Lean). -/
structure Opt where
  use_image_storage : Bool
  use_fp16_packed : Bool
  use_fp16_storage : Bool
  use_fp16_arithmetic : Bool
  use_int8_storage : Bool
  use_int8_arithmetic : Bool
deriving DecidableEq, Repr, Fintype

/-- The reflection data of a compiled shader (`ncnn::ShaderInfo`):
binding shape, push-constant count and specialization-constant count. -/
structure ShaderInfo where
  specialization_count : Nat
  binding_count : Nat
  binding_types : List Nat
  push_constant_count : Nat
deriving DecidableEq, Repr

/-! ### The two specialization-data hash functions (pipelinecache.cpp lines 23-63) -/

/-- One iteration of the `murmur3_32` word loop:
`k *= 0xcc9e2d51; k = (k << 15) | (k >> 17); k *= 0x1b873593;
h ^= k; h = (h << 13) | (h >> 19); h = h * 5 + 0xe6546b64;`
with all `uint32_t` arithmetic made explicit as `% 2 ^ 32`. -/
def murmur3_round (h k : Nat) : Nat :=
  let k1 := (k * 0xcc9e2d51) % 2 ^ 32
  let k2 := ((k1 <<< 15) % 2 ^ 32) ||| (k1 >>> 17)
  let k3 := (k2 * 0x1b873593) % 2 ^ 32
  let h1 := h ^^^ k3
  let h2 := ((h1 <<< 13) % 2 ^ 32) ||| (h1 >>> 19)
  (h2 * 5 + 0xe6546b64) % 2 ^ 32

/-- The final avalanche of `murmur3_32`:
`h ^= h >> 16; h *= 0x85ebca6b; h ^= h >> 13; h *= 0xc2b2ae35; h ^= h >> 16;`. -/
def murmur3_fmix (h : Nat) : Nat :=
  let h1 := h ^^^ (h >>> 16)
  let h2 := (h1 * 0x85ebca6b) % 2 ^ 32
  let h3 := h2 ^^^ (h2 >>> 13)
  let h4 := (h3 * 0xc2b2ae35) % 2 ^ 32
  h4 ^^^ (h4 >>> 16)

/-- `murmur3_32(data, size)` from pipelinecache.cpp: seed `h = 0`, the
`for` loop folding `murmur3_round` over the words in order, then
`h ^= size * 4` and the final mix.  `data` is the list of the `size`
32-bit words read. -/
def murmur3_32 (data : List Nat) : Nat :=
  murmur3_fmix (data.foldl murmur3_round 0 ^^^ (data.length * 4) % 2 ^ 32)

/-- The `for` loop of `fnv1a_32`: `h = (h ^ byte) * 0x01000193` per byte. -/
def fnv1a_loop : Nat → List Nat → Nat
  | h, [] => h
  | h, b :: bs => fnv1a_loop (((h ^^^ b) * 0x01000193) % 2 ^ 32) bs

/-- `fnv1a_32(data, size)` from pipelinecache.cpp: offset basis
`0x811c9dc5`, then the byte loop.  `data` is the list of the bytes read. -/
def fnv1a_32 (data : List Nat) : Nat :=
  fnv1a_loop 0x811c9dc5 data

/-! ### Reference formulations of the two hash algorithms.

These are written from the specification's description of the published
reference algorithms (spec section 6 bit-exact requirements), as left folds
over the input, to be compared with the loop-recursion embeddings above. -/

/-- Reference FNV-1a (32-bit): fold `h := (h XOR byte) * 0x01000193 mod 2^32`
over the bytes in order, starting from the offset basis `0x811c9dc5`. -/
def fnv1a_32_reference (data : List Nat) : Nat :=
  data.foldl (fun h b => ((h ^^^ b) * 0x01000193) % 2 ^ 32) 0x811c9dc5

/-- 32-bit rotate left, as written in the published reference pseudocode
`(x << r) | (x >> (32 - r))`, with the 32-bit truncation of the left
shift made explicit. -/
def rotl32 (x r : Nat) : Nat :=
  ((x <<< r) % 2 ^ 32) ||| (x >>> (32 - r))

/-- Reference Murmur3 (32-bit, word-aligned input, seed 0): fold the
standard mix (multiply `0xcc9e2d51`, rotate left 15, multiply `0x1b873593`,
xor into `h`, rotate `h` left 13, `h * 5 + 0xe6546b64`) over the words,
xor the byte length `4 * word-count`, then the standard finalizer
(shifts 16/13/16 with constants `0x85ebca6b` and `0xc2b2ae35`). -/
def murmur3_32_reference (data : List Nat) : Nat :=
  let body := data.foldl
    (fun h w =>
      let k := rotl32 ((w * 0xcc9e2d51) % 2 ^ 32) 15 * 0x1b873593 % 2 ^ 32
      (rotl32 (h ^^^ k) 13 * 5 + 0xe6546b64) % 2 ^ 32) 0
  let hlen := body ^^^ (data.length * 4) % 2 ^ 32
  let f1 := ((hlen ^^^ hlen >>> 16) * 0x85ebca6b) % 2 ^ 32
  let f2 := ((f1 ^^^ f1 >>> 13) * 0xc2b2ae35) % 2 ^ 32
  f2 ^^^ f2 >>> 16

/-! ### The cache digest (pipelinecache.cpp lines 65-87)

The `pipeline_cache_digest` field layout and its `operator==` live in the
header pipelinecache.h, which is not part of the sources; following the
spec (section 4.1), equality is field-wise over all components, which the
derived structure equality gives. -/

/-- The packed option byte `opt_local_size_bits[0]`:
`use_image_storage << 7 | use_fp16_packed << 6 | use_fp16_storage << 5
| use_fp16_arithmetic << 4 | use_int8_storage << 3 | use_int8_arithmetic << 2`. -/
def pack_opt_bits (opt : Opt) : Nat :=
  opt.use_image_storage.toNat <<< 7
    ||| opt.use_fp16_packed.toNat <<< 6
    ||| opt.use_fp16_storage.toNat <<< 5
    ||| opt.use_fp16_arithmetic.toNat <<< 4
    ||| opt.use_int8_storage.toNat <<< 3
    ||| opt.use_int8_arithmetic.toNat <<< 2

/-- Modelled from the spec: the little-endian byte decomposition of one
4-byte `vk_specialization_type` value, used when `fnv1a_32` reinterprets
the specialization array as raw bytes (the union layout itself is declared
in headers outside the sources; the spec only says the hashes run over the
raw specialization-constant data). -/
def vk_specialization_bytes (w : Nat) : List Nat :=
  [w % 256, w / 2 ^ 8 % 256, w / 2 ^ 16 % 256, w / 2 ^ 24 % 256]

/-- Modelled from the spec: `pipeline_cache_digest` as a field-wise-compared
record (spec section 4.1: equal kernel identifier, equal packed
option+local-size bits, equal values for both hashes).  `bits0`-`bits3` are
`opt_local_size_bits[0]`-`opt_local_size_bits[3]`. -/
structure pipeline_cache_digest where
  shader_type_index : Int
  bits0 : Nat
  bits1 : Nat
  bits2 : Nat
  bits3 : Nat
  specializations_murmur3 : Nat
  specializations_fnv1a : Nat
deriving DecidableEq, Repr

/-- The `pipeline_cache_digest` constructor (pipelinecache.cpp lines 65-87):
store the kernel index, pack the option bits, store the three local sizes,
and hash the specialization payload with both hash functions (`murmur3_32`
over the words, `fnv1a_32` over the same bytes). -/
def make_digest (shader_type_index : Int) (opt : Opt) (specializations : List Nat)
    (local_size_x local_size_y local_size_z : Nat) : pipeline_cache_digest where
  shader_type_index := shader_type_index
  bits0 := pack_opt_bits opt
  bits1 := local_size_x
  bits2 := local_size_y
  bits3 := local_size_z
  specializations_murmur3 := murmur3_32 specializations
  specializations_fnv1a := fnv1a_32 (specializations.map vk_specialization_bytes).flatten

/-! ### The abstract device and the primitive-invocation trace -/

/-- One invocation of a device create/compile or destroy primitive.
Destroy events carry the handle destroyed, so exactly-once destruction and
destruction order can be read off a trace. -/
inductive Event where
  | createDescriptorSetLayout : Event
  | createPipelineLayout : Event
  | createPipeline : Event
  | createDescriptorUpdateTemplate : Event
  | createShaderModule (shader_type_index : Int) : Event
  | compileShaderModule : Event
  | resolveShaderInfo : Event
  | destroyDescriptorUpdateTemplate (h : Nat) : Event
  | destroyPipeline (h : Nat) : Event
  | destroyPipelineLayout (h : Nat) : Event
  | destroyDescriptorSetLayout (h : Nat) : Event
  | destroyShaderModule (h : Nat) : Event
deriving DecidableEq, Repr

/-- Whether an event is a destroy of some resource. -/
def Event.isDestroy : Event → Bool
  | .destroyDescriptorUpdateTemplate _ => true
  | .destroyPipeline _ => true
  | .destroyPipelineLayout _ => true
  | .destroyDescriptorSetLayout _ => true
  | .destroyShaderModule _ => true
  | _ => false

/-- The destroy events of a trace, in order. -/
def destroysOf (tr : List Event) : List Event :=
  tr.filter Event.isDestroy

/-- The abstract `VulkanDevice` collaborator: capability flags plus the
create/compile/reflect primitives pipelinecache.cpp calls on it.  Fallible
`create_*` primitives (which return an `int` status and write a handle)
yield `none` for a nonzero status; the shader-module primitives return the
handle directly with `0` (null) meaning failure, as in the C API. -/
structure VulkanDevice where
  info : GpuInfo
  create_descriptorset_layout : Nat → List Nat → Option Nat
  create_pipeline_layout : Nat → Nat → Option Nat
  create_pipeline : Nat → Nat → List Nat → Option Nat
  create_descriptor_update_template : Nat → List Nat → Nat → Nat → Option Nat
  create_shader_module : Int → Nat → Nat → Nat → Nat
  compile_shader_module : List Nat → Nat → Nat → Nat → Nat
  resolve_shader_info : List Nat → Option ShaderInfo
  get_shader_info : Int → ShaderInfo

/-! ### new_pipeline (pipelinecache.cpp lines 362-434) -/

/-- The four handles `new_pipeline` writes to its output parameters on
success. -/
structure NewPipelineResult where
  descriptorset_layout : Nat
  pipeline_layout : Nat
  pipeline : Nat
  descriptor_update_template : Nat
deriving DecidableEq, Repr

/-- The `ERROR:` label of `new_pipeline` (lines 408-433): destroy, in this
order, the descriptor-update-template (only when the device supports the
extension), the pipeline, the pipeline layout and the descriptor-set
layout, each only when its local handle is non-null. -/
def rollback_events (info : GpuInfo) (descriptor_update_template pipeline
    pipeline_layout descriptorset_layout : Nat) : List Event :=
  (if info.support_VK_KHR_descriptor_update_template then
    (if descriptor_update_template ≠ 0 then
      [Event.destroyDescriptorUpdateTemplate descriptor_update_template]
    else [])
  else [])
    ++ (if pipeline ≠ 0 then [Event.destroyPipeline pipeline] else [])
    ++ (if pipeline_layout ≠ 0 then [Event.destroyPipelineLayout pipeline_layout] else [])
    ++ (if descriptorset_layout ≠ 0 then
         [Event.destroyDescriptorSetLayout descriptorset_layout] else [])

/-- `PipelineCache::new_pipeline` (lines 362-434).  The local handles start
at null; the specialization count is checked against the signature first
(jumping to `ERROR` with nothing created), then the four creation steps run
in order — descriptor-set layout, pipeline layout, pipeline, and (only on a
capable device) descriptor-update-template — any failure jumping to the
`ERROR` rollback with the handles created so far.  On success the four
handles are returned (`none` models the failure return `-1`, with the
output parameters unwritten). -/
def new_pipeline (vkdev : VulkanDevice) (shader_module : Nat)
    (shader_info : ShaderInfo) (specializations : List Nat) :
    Option NewPipelineResult × List Event :=
  if specializations.length ≠ shader_info.specialization_count then
    (none, rollback_events vkdev.info 0 0 0 0)
  else
    match vkdev.create_descriptorset_layout shader_info.binding_count
        shader_info.binding_types with
    | none => (none, [Event.createDescriptorSetLayout] ++ rollback_events vkdev.info 0 0 0 0)
    | some descriptorset_layout =>
      match vkdev.create_pipeline_layout shader_info.push_constant_count
          descriptorset_layout with
      | none =>
        (none, [Event.createDescriptorSetLayout, Event.createPipelineLayout]
          ++ rollback_events vkdev.info 0 0 0 descriptorset_layout)
      | some pipeline_layout =>
        match vkdev.create_pipeline shader_module pipeline_layout specializations with
        | none =>
          (none,
            [Event.createDescriptorSetLayout, Event.createPipelineLayout,
              Event.createPipeline]
              ++ rollback_events vkdev.info 0 0 pipeline_layout descriptorset_layout)
        | some pipeline =>
          if vkdev.info.support_VK_KHR_descriptor_update_template then
            match vkdev.create_descriptor_update_template shader_info.binding_count
                shader_info.binding_types descriptorset_layout pipeline_layout with
            | none =>
              (none,
                [Event.createDescriptorSetLayout, Event.createPipelineLayout,
                  Event.createPipeline, Event.createDescriptorUpdateTemplate]
                  ++ rollback_events vkdev.info 0 pipeline pipeline_layout
                      descriptorset_layout)
            | some descriptor_update_template =>
              (some ⟨descriptorset_layout, pipeline_layout, pipeline,
                descriptor_update_template⟩,
                [Event.createDescriptorSetLayout, Event.createPipelineLayout,
                  Event.createPipeline, Event.createDescriptorUpdateTemplate])
          else
            (some ⟨descriptorset_layout, pipeline_layout, pipeline, 0⟩,
              [Event.createDescriptorSetLayout, Event.createPipelineLayout,
                Event.createPipeline])

/-! ### create_shader_module and the variant decision chain (lines 257-360,
the `#else // NCNN_VULKAN_ONLINE_SPIRV` branch, lines 288-349) -/

/-- The `if`/`else if` chain of `PipelineCache::create_shader_module`
(lines 301-336) that offsets `shader_type_index` to the concrete shader
variant; `0 = fp32, 1 = fp16p, 2 = fp16pa, 3 = fp16s, 4 = fp16sa,
5 = image, 6 = image_fp16p, 7 = image_fp16pa, 8 = image_fp16s,
9 = image_fp16sa`. -/
def selected_shader_type_index (info : GpuInfo) (opt : Opt)
    (shader_type_index : Int) : Int :=
  if !info.bug_layout_binding_id_alias && opt.use_image_storage
      && info.support_fp16_storage && opt.use_fp16_storage
      && info.support_fp16_arithmetic && opt.use_fp16_arithmetic then
    shader_type_index + 9
  else if !info.bug_layout_binding_id_alias && opt.use_image_storage
      && info.support_fp16_packed && opt.use_fp16_packed
      && info.support_fp16_arithmetic && opt.use_fp16_arithmetic then
    shader_type_index + 7
  else if !info.bug_layout_binding_id_alias && opt.use_image_storage
      && info.support_fp16_storage && opt.use_fp16_storage then
    shader_type_index + 8
  else if !info.bug_layout_binding_id_alias && opt.use_image_storage
      && info.support_fp16_packed && opt.use_fp16_packed then
    shader_type_index + 6
  else if !info.bug_layout_binding_id_alias && opt.use_image_storage then
    shader_type_index + 5
  else if info.support_fp16_storage && opt.use_fp16_storage
      && info.support_fp16_arithmetic && opt.use_fp16_arithmetic then
    shader_type_index + 4
  else if info.support_fp16_packed && opt.use_fp16_packed
      && info.support_fp16_arithmetic && opt.use_fp16_arithmetic then
    shader_type_index + 2
  else if info.support_fp16_storage && opt.use_fp16_storage then
    shader_type_index + 3
  else if info.support_fp16_packed && opt.use_fp16_packed then
    shader_type_index + 1
  else
    shader_type_index

/-- `PipelineCache::create_shader_module` (precompiled-table branch):
offset the kernel index through the variant chain, fetch the variant's
`ShaderInfo` from the static table, and ask the device for the shader
module; a null module is the failure return `-1`. -/
def create_shader_module (vkdev : VulkanDevice) (shader_type_index : Int)
    (opt : Opt) (local_size_x local_size_y local_size_z : Nat) :
    Option (Nat × ShaderInfo) × List Event :=
  let sti := selected_shader_type_index vkdev.info opt shader_type_index
  let si := vkdev.get_shader_info sti
  let shader_module := vkdev.create_shader_module sti local_size_x local_size_y
    local_size_z
  if shader_module = 0 then (none, [Event.createShaderModule sti])
  else (some (shader_module, si), [Event.createShaderModule sti])

/-! ### The cache store and the two get_pipeline entry points -/

/-- One cached bundle (`pipeline_cache_artifact`, declared in the header;
its five handles and signature copy are exactly the fields the .cpp reads
and writes). -/
structure pipeline_cache_artifact where
  shader_module : Nat
  descriptorset_layout : Nat
  pipeline_layout : Nat
  pipeline : Nat
  descriptor_update_template : Nat
  shader_info : ShaderInfo
deriving DecidableEq, Repr

/-- The mutable state of a `PipelineCache`: the parallel vectors
`cache_digests` and `cache_artifacts`. -/
structure PipelineCacheState where
  cache_digests : List pipeline_cache_digest
  cache_artifacts : List pipeline_cache_artifact
deriving DecidableEq, Repr

/-- The result bundle a successful `get_pipeline` writes to its six output
parameters. -/
structure GetPipelineResult where
  shader_module : Nat
  descriptorset_layout : Nat
  pipeline_layout : Nat
  pipeline : Nat
  descriptor_update_template : Nat
  shader_info : ShaderInfo
deriving DecidableEq, Repr

/-- The find loop of the keyed `get_pipeline` (lines 202-218): scan
`cache_digests` in order and return the artifact at the first index whose
digest equals the key.  (The C loop indexes `cache_artifacts[i]` for
`i < cache_digests.size()`; walking the two lists in lockstep models this,
and the lists always have equal length in reachable states.) -/
def find_cache : List pipeline_cache_digest → List pipeline_cache_artifact →
    pipeline_cache_digest → Option pipeline_cache_artifact
  | d :: ds, cc :: ccs, key =>
    if d = key then some cc else find_cache ds ccs key
  | _, _, _ => none

/-- The keyed `PipelineCache::get_pipeline` (lines 191-255): build the
digest, scan the cache and return the stored bundle on a hit; on a miss run
`create_shader_module` then `new_pipeline`, destroying the shader module if
the latter fails, and on success append the (digest, artifact) pair to the
store. -/
def get_pipeline (vkdev : VulkanDevice) (st : PipelineCacheState)
    (shader_type_index : Int) (opt : Opt) (specializations : List Nat)
    (local_size_x local_size_y local_size_z : Nat) :
    Option GetPipelineResult × PipelineCacheState × List Event :=
  let key := make_digest shader_type_index opt specializations local_size_x
    local_size_y local_size_z
  match find_cache st.cache_digests st.cache_artifacts key with
  | some cc =>
    (some ⟨cc.shader_module, cc.descriptorset_layout, cc.pipeline_layout,
      cc.pipeline, cc.descriptor_update_template, cc.shader_info⟩, st, [])
  | none =>
    match create_shader_module vkdev shader_type_index opt local_size_x
        local_size_y local_size_z with
    | (none, tr1) => (none, st, tr1)
    | (some (shader_module, shader_info), tr1) =>
      match new_pipeline vkdev shader_module shader_info specializations with
      | (none, tr2) =>
        (none, st, tr1 ++ tr2 ++ [Event.destroyShaderModule shader_module])
      | (some r, tr2) =>
        let cc : pipeline_cache_artifact :=
          ⟨shader_module, r.descriptorset_layout, r.pipeline_layout, r.pipeline,
            r.descriptor_update_template, shader_info⟩
        (some ⟨shader_module, r.descriptorset_layout, r.pipeline_layout,
          r.pipeline, r.descriptor_update_template, shader_info⟩,
          ⟨st.cache_digests ++ [key], st.cache_artifacts ++ [cc]⟩,
          tr1 ++ tr2)

/-- The bytecode-based `PipelineCache::get_pipeline` (lines 138-189):
resolve the shader info from the raw SPIR-V, compile a fresh shader module,
run `new_pipeline` (destroying the module if it fails), and return the
handles.  It never reads or writes the store (`// TODO save to cache`), so
the state is passed through unchanged. -/
def get_pipeline_spv (vkdev : VulkanDevice) (st : PipelineCacheState)
    (spv_data : List Nat) (specializations : List Nat)
    (local_size_x local_size_y local_size_z : Nat) :
    Option GetPipelineResult × PipelineCacheState × List Event :=
  match vkdev.resolve_shader_info spv_data with
  | none => (none, st, [Event.resolveShaderInfo])
  | some shader_info =>
    let shader_module := vkdev.compile_shader_module spv_data local_size_x
      local_size_y local_size_z
    if shader_module = 0 then
      (none, st, [Event.resolveShaderInfo, Event.compileShaderModule])
    else
      match new_pipeline vkdev shader_module shader_info specializations with
      | (none, tr2) =>
        (none, st, [Event.resolveShaderInfo, Event.compileShaderModule] ++ tr2
          ++ [Event.destroyShaderModule shader_module])
      | (some r, tr2) =>
        (some ⟨shader_module, r.descriptorset_layout, r.pipeline_layout,
          r.pipeline, r.descriptor_update_template, shader_info⟩, st,
          [Event.resolveShaderInfo, Event.compileShaderModule] ++ tr2)

/-! ### clear (pipelinecache.cpp lines 99-136) -/

/-- The destroy calls the `clear` loop body issues for one stored artifact:
descriptor-update-template (only on a capable device), pipeline, pipeline
layout, descriptor-set layout, shader module — each only when non-null. -/
def clear_artifact_events (info : GpuInfo) (cc : pipeline_cache_artifact) :
    List Event :=
  (if info.support_VK_KHR_descriptor_update_template then
    (if cc.descriptor_update_template ≠ 0 then
      [Event.destroyDescriptorUpdateTemplate cc.descriptor_update_template]
    else [])
  else [])
    ++ (if cc.pipeline ≠ 0 then [Event.destroyPipeline cc.pipeline] else [])
    ++ (if cc.pipeline_layout ≠ 0 then
         [Event.destroyPipelineLayout cc.pipeline_layout] else [])
    ++ (if cc.descriptorset_layout ≠ 0 then
         [Event.destroyDescriptorSetLayout cc.descriptorset_layout] else [])
    ++ (if cc.shader_module ≠ 0 then
         [Event.destroyShaderModule cc.shader_module] else [])

/-- `PipelineCache::clear`: destroy every stored artifact's resources in
order, then empty both vectors. -/
def clear (vkdev : VulkanDevice) (st : PipelineCacheState) :
    PipelineCacheState × List Event :=
  (⟨[], []⟩, (st.cache_artifacts.map (clear_artifact_events vkdev.info)).flatten)

/-! ### The spec-side variant decision table (spec section 4.2)

Transcribed from the specification's ten priority-ordered rules, with
propositional conditions, to be compared with the code's
`selected_shader_type_index` chain. -/

/-- The variant offset the spec's decision table assigns: the first rule
whose condition holds wins, in the order rule 1 (+9), rule 2 (+7),
rule 3 (+8), rule 4 (+6), rule 5 (+5), rule 6 (+4), rule 7 (+2),
rule 8 (+3), rule 9 (+1), rule 10 (+0); rules 1-5 all require the
layout-binding-alias workaround flag to be absent. -/
def spec_variant_offset (info : GpuInfo) (opt : Opt) : Nat :=
  if info.bug_layout_binding_id_alias = false ∧ opt.use_image_storage = true
      ∧ info.support_fp16_storage = true ∧ opt.use_fp16_storage = true
      ∧ info.support_fp16_arithmetic = true ∧ opt.use_fp16_arithmetic = true then 9
  else if info.bug_layout_binding_id_alias = false ∧ opt.use_image_storage = true
      ∧ info.support_fp16_packed = true ∧ opt.use_fp16_packed = true
      ∧ info.support_fp16_arithmetic = true ∧ opt.use_fp16_arithmetic = true then 7
  else if info.bug_layout_binding_id_alias = false ∧ opt.use_image_storage = true
      ∧ info.support_fp16_storage = true ∧ opt.use_fp16_storage = true then 8
  else if info.bug_layout_binding_id_alias = false ∧ opt.use_image_storage = true
      ∧ info.support_fp16_packed = true ∧ opt.use_fp16_packed = true then 6
  else if info.bug_layout_binding_id_alias = false
      ∧ opt.use_image_storage = true then 5
  else if info.support_fp16_storage = true ∧ opt.use_fp16_storage = true
      ∧ info.support_fp16_arithmetic = true ∧ opt.use_fp16_arithmetic = true then 4
  else if info.support_fp16_packed = true ∧ opt.use_fp16_packed = true
      ∧ info.support_fp16_arithmetic = true ∧ opt.use_fp16_arithmetic = true then 2
  else if info.support_fp16_storage = true ∧ opt.use_fp16_storage = true then 3
  else if info.support_fp16_packed = true ∧ opt.use_fp16_packed = true then 1
  else 0

/-! ### Concrete fixtures used by the witness theorems -/

/-- A capable device with no erratum: every capability flag except the
erratum is on. -/
def testInfo : GpuInfo :=
  ⟨false, true, true, true, true⟩

/-- A signature expecting one specialization value. -/
def testShaderInfo : ShaderInfo :=
  ⟨1, 2, [7, 7], 1⟩

/-- A device on which every creation primitive succeeds, with distinct
non-null handles. -/
def okDevice : VulkanDevice :=
  ⟨testInfo, fun _ _ => some 11, fun _ _ => some 12, fun _ _ _ => some 13,
    fun _ _ _ _ => some 14, fun _ _ _ _ => 10, fun _ _ _ _ => 10,
    fun _ => some testShaderInfo, fun _ => testShaderInfo⟩

/-- A device whose descriptor-set-layout creation fails. -/
def failDslDevice : VulkanDevice :=
  ⟨testInfo, fun _ _ => none, fun _ _ => some 12, fun _ _ _ => some 13,
    fun _ _ _ _ => some 14, fun _ _ _ _ => 10, fun _ _ _ _ => 10,
    fun _ => some testShaderInfo, fun _ => testShaderInfo⟩

/-- A device whose pipeline-layout creation fails. -/
def failPlDevice : VulkanDevice :=
  ⟨testInfo, fun _ _ => some 11, fun _ _ => none, fun _ _ _ => some 13,
    fun _ _ _ _ => some 14, fun _ _ _ _ => 10, fun _ _ _ _ => 10,
    fun _ => some testShaderInfo, fun _ => testShaderInfo⟩

/-- A device whose pipeline creation fails. -/
def failPDevice : VulkanDevice :=
  ⟨testInfo, fun _ _ => some 11, fun _ _ => some 12, fun _ _ _ => none,
    fun _ _ _ _ => some 14, fun _ _ _ _ => 10, fun _ _ _ _ => 10,
    fun _ => some testShaderInfo, fun _ => testShaderInfo⟩

/-- A device whose descriptor-update-template creation fails. -/
def failDutDevice : VulkanDevice :=
  ⟨testInfo, fun _ _ => some 11, fun _ _ => some 12, fun _ _ _ => some 13,
    fun _ _ _ _ => none, fun _ _ _ _ => 10, fun _ _ _ _ => 10,
    fun _ => some testShaderInfo, fun _ => testShaderInfo⟩

/-- A device whose shader-module creation and compilation fail (null
module). -/
def failSmDevice : VulkanDevice :=
  ⟨testInfo, fun _ _ => some 11, fun _ _ => some 12, fun _ _ _ => some 13,
    fun _ _ _ _ => some 14, fun _ _ _ _ => 0, fun _ _ _ _ => 0,
    fun _ => some testShaderInfo, fun _ => testShaderInfo⟩

/-- The option set of the spec's concrete scenario: image storage, fp16
packed/storage/arithmetic requested, int8 off. -/
def testOpt : Opt :=
  ⟨true, true, true, true, false, false⟩

/-- The artifact built by `okDevice`: module 10, descriptor-set layout 11,
pipeline layout 12, pipeline 13, update template 14. -/
def testArtifact : pipeline_cache_artifact :=
  ⟨10, 11, 12, 13, 14, testShaderInfo⟩

/-! ## Helper lemmas -/

lemma get_pipeline_spv_state_eq (vkdev : VulkanDevice) (st : PipelineCacheState)
    (spv specs : List Nat) (x y z : Nat) :
    (get_pipeline_spv vkdev st spv specs x y z).2.1 = st := by
  unfold get_pipeline_spv
  rcases vkdev.resolve_shader_info spv with _ | si
  · rfl
  · simp only []
    split_ifs
    · rfl
    · rcases hnp : new_pipeline vkdev (vkdev.compile_shader_module spv x y z)
          si specs with ⟨res, tr2⟩
      cases res <;> simp [hnp]

lemma pack_opt_bits_int8_inj (o1 o2 o3 o4 o5 o6 s a : Bool) :
    pack_opt_bits ⟨o1, o2, o3, o4, s, a⟩ = pack_opt_bits ⟨o1, o2, o3, o4, o5, o6⟩ →
    s = o5 ∧ a = o6 := by
  cases o1 <;> cases o2 <;> cases o3 <;> cases o4 <;> cases o5 <;> cases o6 <;>
    cases s <;> cases a <;> decide

lemma count_clear_dut (info : GpuInfo) (cc : pipeline_cache_artifact) (h : Nat)
    (hs : info.support_VK_KHR_descriptor_update_template = true) (hh : h ≠ 0) :
    (clear_artifact_events info cc).count (Event.destroyDescriptorUpdateTemplate h)
      = if cc.descriptor_update_template == h then 1 else 0 := by
  unfold clear_artifact_events
  rw [hs]
  split_ifs <;>
    simp_all [List.count_append, List.count_cons, List.count_nil, beq_iff_eq]

lemma count_clear_pipeline (info : GpuInfo) (cc : pipeline_cache_artifact) (h : Nat)
    (hh : h ≠ 0) :
    (clear_artifact_events info cc).count (Event.destroyPipeline h)
      = if cc.pipeline == h then 1 else 0 := by
  unfold clear_artifact_events
  split_ifs <;>
    simp_all [List.count_append, List.count_cons, List.count_nil, beq_iff_eq]

lemma count_clear_pipeline_layout (info : GpuInfo) (cc : pipeline_cache_artifact)
    (h : Nat) (hh : h ≠ 0) :
    (clear_artifact_events info cc).count (Event.destroyPipelineLayout h)
      = if cc.pipeline_layout == h then 1 else 0 := by
  unfold clear_artifact_events
  split_ifs <;>
    simp_all [List.count_append, List.count_cons, List.count_nil, beq_iff_eq]

lemma count_clear_dsl (info : GpuInfo) (cc : pipeline_cache_artifact) (h : Nat)
    (hh : h ≠ 0) :
    (clear_artifact_events info cc).count (Event.destroyDescriptorSetLayout h)
      = if cc.descriptorset_layout == h then 1 else 0 := by
  unfold clear_artifact_events
  split_ifs <;>
    simp_all [List.count_append, List.count_cons, List.count_nil, beq_iff_eq]

lemma count_clear_sm (info : GpuInfo) (cc : pipeline_cache_artifact) (h : Nat)
    (hh : h ≠ 0) :
    (clear_artifact_events info cc).count (Event.destroyShaderModule h)
      = if cc.shader_module == h then 1 else 0 := by
  unfold clear_artifact_events
  split_ifs <;>
    simp_all [List.count_append, List.count_cons, List.count_nil, beq_iff_eq]

lemma clear_count_generic (info : GpuInfo) (l : List pipeline_cache_artifact)
    (e : Event) (p : pipeline_cache_artifact → Bool)
    (hcc : ∀ cc, (clear_artifact_events info cc).count e = if p cc then 1 else 0) :
    ((l.map (clear_artifact_events info)).flatten).count e = l.countP p := by
  induction l with
  | nil => simp
  | cons cc l ih =>
    simp only [List.map_cons, List.flatten_cons, List.count_append, ih, hcc,
      List.countP_cons]
    split_ifs <;> omega

lemma find_cache_first (ds : List pipeline_cache_digest)
    (ccs : List pipeline_cache_artifact) (key : pipeline_cache_digest) :
    ∀ (i : Nat) (cc : pipeline_cache_artifact),
    ds[i]? = some key → ccs[i]? = some cc →
    (∀ j, j < i → ds[j]? ≠ some key) →
    find_cache ds ccs key = some cc := by
  induction ds generalizing ccs with
  | nil => intro i cc hd; simp at hd
  | cons d ds ih =>
    intro i cc hd hc hfirst
    cases ccs with
    | nil => simp at hc
    | cons cc0 ccs =>
      cases i with
      | zero =>
        simp only [List.getElem?_cons_zero, Option.some.injEq] at hd hc
        subst hd
        subst hc
        simp [find_cache]
      | succ i =>
        have hne : d ≠ key := by
          intro hdk
          exact hfirst 0 (Nat.succ_pos i) (by simp [hdk])
        simp only [List.getElem?_cons_succ] at hd hc
        rw [find_cache, if_neg hne]
        exact ih ccs i cc hd hc fun j hj => by
          have := hfirst (j + 1) (Nat.succ_lt_succ hj)
          simpa using this

lemma find_cache_append_self (ds : List pipeline_cache_digest)
    (ccs : List pipeline_cache_artifact) (key : pipeline_cache_digest)
    (cc : pipeline_cache_artifact) :
    find_cache ds ccs key = none → ds.length = ccs.length →
    find_cache (ds ++ [key]) (ccs ++ [cc]) key = some cc := by
  induction ds generalizing ccs with
  | nil =>
    intro _ hlen
    cases ccs with
    | nil => simp [find_cache]
    | cons cc0 ccs => simp at hlen
  | cons d ds ih =>
    intro hnone hlen
    cases ccs with
    | nil => simp at hlen
    | cons cc0 ccs =>
      rw [find_cache] at hnone
      by_cases hdk : d = key
      · rw [if_pos hdk] at hnone
        exact absurd hnone (by simp)
      · rw [if_neg hdk] at hnone
        simp only [List.cons_append]
        rw [find_cache, if_neg hdk]
        exact ih ccs hnone (by simpa using hlen)

lemma destroysOf_append (a b : List Event) :
    destroysOf (a ++ b) = destroysOf a ++ destroysOf b :=
  List.filter_append _ _

lemma destroysOf_rollback (info : GpuInfo) (dut p pl dsl : Nat) :
    destroysOf (rollback_events info dut p pl dsl)
      = rollback_events info dut p pl dsl := by
  unfold rollback_events destroysOf
  split_ifs <;> simp [Event.isDestroy]

lemma fnv1a_loop_eq_foldl (l : List Nat) (h : Nat) :
    fnv1a_loop h l
      = l.foldl (fun h b => ((h ^^^ b) * 0x01000193) % 2 ^ 32) h := by
  induction l generalizing h with
  | nil => rfl
  | cons b bs ih => simp [fnv1a_loop, ih]

lemma murmur3_ref_body (data : List Nat) :
    data.foldl
      (fun h w =>
        let k := rotl32 ((w * 0xcc9e2d51) % 2 ^ 32) 15 * 0x1b873593 % 2 ^ 32
        (rotl32 (h ^^^ k) 13 * 5 + 0xe6546b64) % 2 ^ 32) 0
      = data.foldl murmur3_round 0 := by
  refine List.foldl_ext _ _ _ fun h w _ => ?_
  norm_num [murmur3_round, rotl32]

lemma selected_eq_spec (info : GpuInfo) (opt : Opt) (base : Int) :
    selected_shader_type_index info opt base
      = base + (spec_variant_offset info opt : Int) := by
  obtain ⟨b1, b2, b3, b4, b5⟩ := info
  obtain ⟨o1, o2, o3, o4, o5, o6⟩ := opt
  cases b1 <;> cases b2 <;> cases b3 <;> cases b4 <;>
    cases o1 <;> cases o2 <;> cases o3 <;> cases o4 <;>
    first
      | rfl
      | simp [selected_shader_type_index, spec_variant_offset]

/-! ## The claims -/

/-- Claim C5: the two specialization-data hash functions match their
reference algorithms bit-exactly — `fnv1a_32` is 32-bit FNV-1a with offset
basis `0x811c9dc5` and prime `0x01000193` over the bytes in order, and
`murmur3_32` is the Murmur3-32 word loop with seed 0, constants
`0xcc9e2d51`/`0x1b873593`, rotations 15 and 13, the `5 * h + 0xe6546b64`
mix, the `4 * word-count` length xor and the standard 16/13/16 finalizer
with constants `0x85ebca6b`/`0xc2b2ae35`, all modulo `2 ^ 32`. -/
theorem C5_hashes_match_reference (data : List Nat) :
    fnv1a_32 data = fnv1a_32_reference data
      ∧ murmur3_32 data = murmur3_32_reference data := by
  refine ⟨?_, ?_⟩
  · rw [fnv1a_32, fnv1a_32_reference, fnv1a_loop_eq_foldl]
  · rw [murmur3_32, murmur3_32_reference]
    simp only []
    rw [murmur3_ref_body]
    rfl

/-- Claim C1: variant selection implements the priority-ordered ten-rule
decision table exactly — for every combination of option flags and device
capability flags, `create_shader_module` adds to the base kernel id the
offset of the first matching rule in the spec's order
(`spec_variant_offset`); when the layout-binding-alias erratum flag is set
no image offset (+5..+9) is ever selected; and an input satisfying both
rule 1 and rule 6 gets offset 9. -/
theorem C1_variant_selection :
    (∀ (info : GpuInfo) (opt : Opt) (base : Int),
      selected_shader_type_index info opt base
        = base + (spec_variant_offset info opt : Int))
    ∧ (∀ (info : GpuInfo) (opt : Opt),
      info.bug_layout_binding_id_alias = true → spec_variant_offset info opt < 5)
    ∧ (∀ (info : GpuInfo) (opt : Opt),
      info.bug_layout_binding_id_alias = false → opt.use_image_storage = true →
      info.support_fp16_storage = true → opt.use_fp16_storage = true →
      info.support_fp16_arithmetic = true → opt.use_fp16_arithmetic = true →
      spec_variant_offset info opt = 9)
    ∧ (∀ (vkdev : VulkanDevice) (opt : Opt) (base : Int) (x y z : Nat),
      (create_shader_module vkdev base opt x y z).2
        = [Event.createShaderModule (base + (spec_variant_offset vkdev.info opt : Int))]) := by
  refine ⟨selected_eq_spec, fun info opt hbug => ?_,
    fun info opt h1 h2 h3 h4 h5 h6 => ?_, fun vkdev opt base x y z => ?_⟩
  · obtain ⟨b1, b2, b3, b4, b5⟩ := info
    cases hbug
    simp only [spec_variant_offset]
    norm_num
    split_ifs <;> norm_num
  · simp [spec_variant_offset, h1, h2, h3, h4, h5, h6]
  · simp [create_shader_module, apply_ite Prod.snd, ite_self, selected_eq_spec]

/-- Witness for C1 at the spec's concrete scenario (kernel id 3,
image + fp16 storage + fp16 arithmetic requested and supported, no
erratum), and at the same options on an erratum device. -/
theorem C1_variant_selection_witness :
    selected_shader_type_index ⟨false, true, true, true, true⟩
        ⟨true, true, true, true, false, false⟩ 3
      = 3 + (spec_variant_offset ⟨false, true, true, true, true⟩
          ⟨true, true, true, true, false, false⟩ : Int)
    ∧ spec_variant_offset ⟨true, true, true, true, true⟩
        ⟨true, true, true, true, false, false⟩ < 5
    ∧ spec_variant_offset ⟨false, true, true, true, true⟩
        ⟨true, true, true, true, false, false⟩ = 9 :=
  ⟨C1_variant_selection.1 _ _ 3, C1_variant_selection.2.1 _ _ rfl,
    C1_variant_selection.2.2.1 _ _ rfl rfl rfl rfl rfl rfl⟩

/-- Claim C6: when the number of supplied specialization values differs
from the signature's declared `specialization_count`, `new_pipeline`
returns failure before invoking any of the four creation primitives — the
trace is empty, so nothing was created and the rollback destroyed
nothing. -/
theorem C6_specialization_count_checked_first (vkdev : VulkanDevice)
    (shader_module : Nat) (shader_info : ShaderInfo) (specializations : List Nat)
    (hmismatch : specializations.length ≠ shader_info.specialization_count) :
    new_pipeline vkdev shader_module shader_info specializations = (none, []) := by
  unfold new_pipeline
  rw [if_pos hmismatch]
  simp [rollback_events]

/-- Witness for C6: supplying zero specialization values against a
signature declaring one. -/
theorem C6_witness :
    (List.length ([] : List Nat) ≠ testShaderInfo.specialization_count)
      ∧ new_pipeline okDevice 10 testShaderInfo [] = (none, []) :=
  ⟨by decide, C6_specialization_count_checked_first okDevice 10 testShaderInfo []
    (by decide)⟩

/-- Claim C2: whichever of the four creation steps of `new_pipeline` fails,
every resource created in the steps before it is destroyed, in strictly
reverse creation order, each exactly once, null handles skipped, and the
function returns failure (writing no output handles).  One conjunct per
failing step, with the handles returned by the earlier successful steps
named by hypotheses. -/
theorem C2_new_pipeline_rollback :
    (∀ (vkdev : VulkanDevice) (sm : Nat) (si : ShaderInfo) (specs : List Nat),
      specs.length = si.specialization_count →
      vkdev.create_descriptorset_layout si.binding_count si.binding_types = none →
      (new_pipeline vkdev sm si specs).1 = none
        ∧ destroysOf (new_pipeline vkdev sm si specs).2 = [])
    ∧ (∀ (vkdev : VulkanDevice) (sm : Nat) (si : ShaderInfo) (specs : List Nat)
        (dsl : Nat),
      specs.length = si.specialization_count →
      vkdev.create_descriptorset_layout si.binding_count si.binding_types = some dsl →
      vkdev.create_pipeline_layout si.push_constant_count dsl = none →
      (new_pipeline vkdev sm si specs).1 = none
        ∧ destroysOf (new_pipeline vkdev sm si specs).2
            = (if dsl ≠ 0 then [Event.destroyDescriptorSetLayout dsl] else []))
    ∧ (∀ (vkdev : VulkanDevice) (sm : Nat) (si : ShaderInfo) (specs : List Nat)
        (dsl pl : Nat),
      specs.length = si.specialization_count →
      vkdev.create_descriptorset_layout si.binding_count si.binding_types = some dsl →
      vkdev.create_pipeline_layout si.push_constant_count dsl = some pl →
      vkdev.create_pipeline sm pl specs = none →
      (new_pipeline vkdev sm si specs).1 = none
        ∧ destroysOf (new_pipeline vkdev sm si specs).2
            = (if pl ≠ 0 then [Event.destroyPipelineLayout pl] else [])
              ++ (if dsl ≠ 0 then [Event.destroyDescriptorSetLayout dsl] else []))
    ∧ (∀ (vkdev : VulkanDevice) (sm : Nat) (si : ShaderInfo) (specs : List Nat)
        (dsl pl p : Nat),
      specs.length = si.specialization_count →
      vkdev.create_descriptorset_layout si.binding_count si.binding_types = some dsl →
      vkdev.create_pipeline_layout si.push_constant_count dsl = some pl →
      vkdev.create_pipeline sm pl specs = some p →
      vkdev.info.support_VK_KHR_descriptor_update_template = true →
      vkdev.create_descriptor_update_template si.binding_count si.binding_types dsl pl
        = none →
      (new_pipeline vkdev sm si specs).1 = none
        ∧ destroysOf (new_pipeline vkdev sm si specs).2
            = (if p ≠ 0 then [Event.destroyPipeline p] else [])
              ++ (if pl ≠ 0 then [Event.destroyPipelineLayout pl] else [])
              ++ (if dsl ≠ 0 then [Event.destroyDescriptorSetLayout dsl] else [])) := by
  refine ⟨fun vkdev sm si specs hlen h1 => ?_,
    fun vkdev sm si specs dsl hlen h1 h2 => ?_,
    fun vkdev sm si specs dsl pl hlen h1 h2 h3 => ?_,
    fun vkdev sm si specs dsl pl p hlen h1 h2 h3 hsupp h4 => ?_⟩ <;>
    unfold new_pipeline <;>
    rw [if_neg (by simp [hlen])]
  · simp only [h1]
    exact ⟨trivial, by simp [destroysOf, Event.isDestroy, rollback_events]⟩
  · simp only [h1, h2]
    refine ⟨trivial, ?_⟩
    simp only [destroysOf_append, destroysOf_rollback]
    simp [destroysOf, Event.isDestroy, rollback_events]
  · simp only [h1, h2, h3]
    refine ⟨trivial, ?_⟩
    simp only [destroysOf_append, destroysOf_rollback]
    simp [destroysOf, Event.isDestroy, rollback_events]
  · simp only [h1, h2, h3, hsupp, if_true, h4]
    refine ⟨trivial, ?_⟩
    simp only [destroysOf_append, destroysOf_rollback]
    simp [destroysOf, Event.isDestroy, rollback_events]

/-- Witness for C2: one concrete device per failing step, with non-null
handles 11, 12, 13 created by the earlier steps. -/
theorem C2_witness :
    ((new_pipeline failDslDevice 10 testShaderInfo [5]).1 = none
      ∧ destroysOf (new_pipeline failDslDevice 10 testShaderInfo [5]).2 = [])
    ∧ ((new_pipeline failPlDevice 10 testShaderInfo [5]).1 = none
      ∧ destroysOf (new_pipeline failPlDevice 10 testShaderInfo [5]).2
          = (if (11 : Nat) ≠ 0 then [Event.destroyDescriptorSetLayout 11] else []))
    ∧ ((new_pipeline failPDevice 10 testShaderInfo [5]).1 = none
      ∧ destroysOf (new_pipeline failPDevice 10 testShaderInfo [5]).2
          = (if (12 : Nat) ≠ 0 then [Event.destroyPipelineLayout 12] else [])
            ++ (if (11 : Nat) ≠ 0 then [Event.destroyDescriptorSetLayout 11] else []))
    ∧ ((new_pipeline failDutDevice 10 testShaderInfo [5]).1 = none
      ∧ destroysOf (new_pipeline failDutDevice 10 testShaderInfo [5]).2
          = (if (13 : Nat) ≠ 0 then [Event.destroyPipeline 13] else [])
            ++ (if (12 : Nat) ≠ 0 then [Event.destroyPipelineLayout 12] else [])
            ++ (if (11 : Nat) ≠ 0 then [Event.destroyDescriptorSetLayout 11] else [])) :=
  ⟨C2_new_pipeline_rollback.1 failDslDevice 10 testShaderInfo [5] rfl rfl,
    C2_new_pipeline_rollback.2.1 failPlDevice 10 testShaderInfo [5] 11 rfl rfl rfl,
    C2_new_pipeline_rollback.2.2.1 failPDevice 10 testShaderInfo [5] 11 12
      rfl rfl rfl rfl,
    C2_new_pipeline_rollback.2.2.2 failDutDevice 10 testShaderInfo [5] 11 12 13
      rfl rfl rfl rfl rfl rfl⟩

/-- Claim C10: the int8 option flags influence the cache key but never the
variant.  For two requests identical except in `use_int8_storage` and/or
`use_int8_arithmetic`, variant selection yields the same shader index, yet
the computed digests differ; the two flags sit at bit positions 3 and 2 of
the packed option byte. -/
theorem C10_int8_flags_key_only (opt : Opt) (s a : Bool)
    (hne : ¬(s = opt.use_int8_storage ∧ a = opt.use_int8_arithmetic))
    (info : GpuInfo) (base : Int) (specs : List Nat) (x y z : Nat) :
    selected_shader_type_index info
        ⟨opt.use_image_storage, opt.use_fp16_packed, opt.use_fp16_storage,
          opt.use_fp16_arithmetic, s, a⟩ base
      = selected_shader_type_index info opt base
    ∧ make_digest base
        ⟨opt.use_image_storage, opt.use_fp16_packed, opt.use_fp16_storage,
          opt.use_fp16_arithmetic, s, a⟩ specs x y z
      ≠ make_digest base opt specs x y z
    ∧ (pack_opt_bits opt).testBit 3 = opt.use_int8_storage
    ∧ (pack_opt_bits opt).testBit 2 = opt.use_int8_arithmetic := by
  obtain ⟨o1, o2, o3, o4, o5, o6⟩ := opt
  refine ⟨rfl, fun h => ?_, ?_, ?_⟩
  · have hb : pack_opt_bits ⟨o1, o2, o3, o4, s, a⟩
        = pack_opt_bits ⟨o1, o2, o3, o4, o5, o6⟩ :=
      congrArg pipeline_cache_digest.bits0 h
    exact hne (pack_opt_bits_int8_inj o1 o2 o3 o4 o5 o6 s a hb)
  · cases o1 <;> cases o2 <;> cases o3 <;> cases o4 <;> cases o5 <;> cases o6 <;>
      decide
  · cases o1 <;> cases o2 <;> cases o3 <;> cases o4 <;> cases o5 <;> cases o6 <;>
      decide

/-- Witness for C10: toggling `use_int8_storage` at the spec's concrete
scenario (kernel 3, local size (8,8,1)). -/
theorem C10_witness :
    selected_shader_type_index testInfo ⟨true, true, true, true, true, false⟩ 3
      = selected_shader_type_index testInfo ⟨true, true, true, true, false, false⟩ 3
    ∧ make_digest 3 ⟨true, true, true, true, true, false⟩ [] 8 8 1
      ≠ make_digest 3 ⟨true, true, true, true, false, false⟩ [] 8 8 1
    ∧ (pack_opt_bits ⟨true, true, true, true, false, false⟩).testBit 3 = false
    ∧ (pack_opt_bits ⟨true, true, true, true, false, false⟩).testBit 2 = false :=
  C10_int8_flags_key_only ⟨true, true, true, true, false, false⟩ true false
    (by decide) testInfo 3 [] 8 8 1

/-- Claim C7: `clear` empties the store, destroys every non-null owned
handle of every stored bundle exactly once (absent handles are skipped:
a handle value no bundle holds, or held only as null, is destroyed zero
times), and destroys each bundle's handles in the fixed order
descriptor-update-template, pipeline, pipeline layout, descriptor-set
layout, shader module. -/
theorem C7_clear_teardown :
    (∀ (vkdev : VulkanDevice) (st : PipelineCacheState),
      (clear vkdev st).1 = ⟨[], []⟩)
    ∧ (∀ (vkdev : VulkanDevice) (st : PipelineCacheState) (h : Nat), h ≠ 0 →
      ((clear vkdev st).2.count (Event.destroyPipeline h)
          = st.cache_artifacts.countP (fun cc => cc.pipeline == h))
        ∧ ((clear vkdev st).2.count (Event.destroyPipelineLayout h)
          = st.cache_artifacts.countP (fun cc => cc.pipeline_layout == h))
        ∧ ((clear vkdev st).2.count (Event.destroyDescriptorSetLayout h)
          = st.cache_artifacts.countP (fun cc => cc.descriptorset_layout == h))
        ∧ ((clear vkdev st).2.count (Event.destroyShaderModule h)
          = st.cache_artifacts.countP (fun cc => cc.shader_module == h))
        ∧ (vkdev.info.support_VK_KHR_descriptor_update_template = true →
          (clear vkdev st).2.count (Event.destroyDescriptorUpdateTemplate h)
            = st.cache_artifacts.countP
                (fun cc => cc.descriptor_update_template == h)))
    ∧ (∀ (info : GpuInfo) (cc : pipeline_cache_artifact),
      info.support_VK_KHR_descriptor_update_template = true →
      cc.descriptor_update_template ≠ 0 → cc.pipeline ≠ 0 →
      cc.pipeline_layout ≠ 0 → cc.descriptorset_layout ≠ 0 →
      cc.shader_module ≠ 0 →
      clear_artifact_events info cc
        = [Event.destroyDescriptorUpdateTemplate cc.descriptor_update_template,
            Event.destroyPipeline cc.pipeline,
            Event.destroyPipelineLayout cc.pipeline_layout,
            Event.destroyDescriptorSetLayout cc.descriptorset_layout,
            Event.destroyShaderModule cc.shader_module]) := by
  refine ⟨fun vkdev st => rfl, fun vkdev st h hh => ?_,
    fun info cc hs h1 h2 h3 h4 h5 => ?_⟩
  · exact ⟨clear_count_generic _ _ _ _ fun cc => count_clear_pipeline _ cc h hh,
      clear_count_generic _ _ _ _ fun cc => count_clear_pipeline_layout _ cc h hh,
      clear_count_generic _ _ _ _ fun cc => count_clear_dsl _ cc h hh,
      clear_count_generic _ _ _ _ fun cc => count_clear_sm _ cc h hh,
      fun hs =>
        clear_count_generic _ _ _ _ fun cc => count_clear_dut _ cc h hs hh⟩
  · simp [clear_artifact_events, hs, h1, h2, h3, h4, h5]

/-- Witness for C7: a one-bundle store on a capable device; the bundle's
five handles are destroyed once each, in the fixed order. -/
theorem C7_witness :
    ((clear okDevice ⟨[make_digest 3 ⟨true, true, true, true, false, false⟩ [] 8 8 1],
        [⟨10, 11, 12, 13, 14, testShaderInfo⟩]⟩).2.count (Event.destroyPipeline 13)
      = List.countP (fun cc => cc.pipeline == 13)
          [(⟨10, 11, 12, 13, 14, testShaderInfo⟩ : pipeline_cache_artifact)])
    ∧ clear_artifact_events testInfo ⟨10, 11, 12, 13, 14, testShaderInfo⟩
        = [Event.destroyDescriptorUpdateTemplate 14, Event.destroyPipeline 13,
            Event.destroyPipelineLayout 12, Event.destroyDescriptorSetLayout 11,
            Event.destroyShaderModule 10] :=
  ⟨(C7_clear_teardown.2.1 okDevice _ 13 (by decide)).1,
    C7_clear_teardown.2.2 testInfo ⟨10, 11, 12, 13, 14, testShaderInfo⟩
      rfl (by decide) (by decide) (by decide) (by decide) (by decide)⟩

/-- Claim C8: the bytecode-based `get_pipeline` never reads or modifies the
cache store — the state is unchanged on every path — and always builds
fresh: whenever reflection succeeds it invokes shader-module compilation,
and a successful result's shader module is exactly the freshly compiled
one, not a stored handle. -/
theorem C8_spv_path_bypasses_store :
    (∀ (vkdev : VulkanDevice) (st : PipelineCacheState) (spv specs : List Nat)
      (x y z : Nat),
      (get_pipeline_spv vkdev st spv specs x y z).2.1 = st)
    ∧ (∀ (vkdev : VulkanDevice) (st : PipelineCacheState) (spv specs : List Nat)
      (x y z : Nat) (si : ShaderInfo),
      vkdev.resolve_shader_info spv = some si →
      Event.compileShaderModule ∈ (get_pipeline_spv vkdev st spv specs x y z).2.2)
    ∧ (∀ (vkdev : VulkanDevice) (st : PipelineCacheState) (spv specs : List Nat)
      (x y z : Nat) (r : GetPipelineResult),
      (get_pipeline_spv vkdev st spv specs x y z).1 = some r →
      r.shader_module = vkdev.compile_shader_module spv x y z) := by
  refine ⟨get_pipeline_spv_state_eq,
    fun vkdev st spv specs x y z si hres => ?_,
    fun vkdev st spv specs x y z r hr => ?_⟩
  · unfold get_pipeline_spv
    simp only [hres]
    split_ifs
    · simp
    · rcases hnp : new_pipeline vkdev (vkdev.compile_shader_module spv x y z)
          si specs with ⟨res, tr2⟩
      cases res <;> simp [hnp]
  · unfold get_pipeline_spv at hr
    rcases hres : vkdev.resolve_shader_info spv with _ | si <;>
      simp only [hres] at hr
    · exact absurd hr (by simp)
    · by_cases hsm : vkdev.compile_shader_module spv x y z = 0
      · rw [if_pos hsm] at hr
        simp at hr
      · rw [if_neg hsm] at hr
        rcases hnp : new_pipeline vkdev (vkdev.compile_shader_module spv x y z)
            si specs with ⟨res, tr2⟩
        cases res with
        | none =>
          simp only [hnp] at hr
          simp at hr
        | some r0 =>
          simp only [hnp, Option.some.injEq] at hr
          subst hr
          rfl

/-- Witness for C8: a successful bytecode build on `okDevice` leaves an
empty store empty, invokes compilation, and returns the compiled module
handle 10. -/
theorem C8_witness :
    (get_pipeline_spv okDevice ⟨[], []⟩ [1] [5] 8 8 1).2.1
        = (⟨[], []⟩ : PipelineCacheState)
    ∧ Event.compileShaderModule ∈ (get_pipeline_spv okDevice ⟨[], []⟩ [1] [5] 8 8 1).2.2
    ∧ (⟨10, 11, 12, 13, 14, testShaderInfo⟩ : GetPipelineResult).shader_module
        = okDevice.compile_shader_module [1] 8 8 1 :=
  ⟨C8_spv_path_bypasses_store.1 okDevice ⟨[], []⟩ [1] [5] 8 8 1,
    C8_spv_path_bypasses_store.2.1 okDevice ⟨[], []⟩ [1] [5] 8 8 1 testShaderInfo rfl,
    C8_spv_path_bypasses_store.2.2 okDevice ⟨[], []⟩ [1] [5] 8 8 1
      ⟨10, 11, 12, 13, 14, testShaderInfo⟩ (by decide)⟩

/-- Claim C4: a keyed request whose digest matches a stored entry returns
success with the first matching entry's five handles and signature copied
verbatim, without invoking any creation primitive (empty trace) and
without modifying the store; consequently a second request identical to a
previously successful one returns the same handles as the first. -/
theorem C4_cache_hit_idempotent :
    (∀ (vkdev : VulkanDevice) (st : PipelineCacheState) (sti : Int) (opt : Opt)
      (specs : List Nat) (x y z : Nat) (i : Nat) (cc : pipeline_cache_artifact),
      st.cache_digests[i]? = some (make_digest sti opt specs x y z) →
      st.cache_artifacts[i]? = some cc →
      (∀ j, j < i → st.cache_digests[j]? ≠ some (make_digest sti opt specs x y z)) →
      get_pipeline vkdev st sti opt specs x y z
        = (some ⟨cc.shader_module, cc.descriptorset_layout, cc.pipeline_layout,
            cc.pipeline, cc.descriptor_update_template, cc.shader_info⟩, st, []))
    ∧ (∀ (vkdev : VulkanDevice) (st : PipelineCacheState) (sti : Int) (opt : Opt)
      (specs : List Nat) (x y z : Nat) (r : GetPipelineResult)
      (st2 : PipelineCacheState) (tr : List Event),
      st.cache_digests.length = st.cache_artifacts.length →
      get_pipeline vkdev st sti opt specs x y z = (some r, st2, tr) →
      get_pipeline vkdev st2 sti opt specs x y z = (some r, st2, [])) := by
  constructor
  · intro vkdev st sti opt specs x y z i cc hdig hart hfirst
    have hfind := find_cache_first st.cache_digests st.cache_artifacts
      (make_digest sti opt specs x y z) i cc hdig hart hfirst
    unfold get_pipeline
    simp only [hfind]
  · intro vkdev st sti opt specs x y z r st2 tr hlen hcall
    unfold get_pipeline at hcall ⊢
    rcases hf : find_cache st.cache_digests st.cache_artifacts
        (make_digest sti opt specs x y z) with _ | cc
    · simp only [hf] at hcall
      rcases hcs : create_shader_module vkdev sti opt x y z with ⟨res1, tr1⟩
      simp only [hcs] at hcall
      cases res1 with
      | none => simp at hcall
      | some p =>
        obtain ⟨sm, si⟩ := p
        rcases hnp : new_pipeline vkdev sm si specs with ⟨res2, tr2⟩
        simp only [hnp] at hcall
        cases res2 with
        | none => simp at hcall
        | some r0 =>
          simp only [Prod.mk.injEq, Option.some.injEq] at hcall
          obtain ⟨hr, hst2, htr⟩ := hcall
          subst hr
          subst hst2
          have hfind2 := find_cache_append_self st.cache_digests st.cache_artifacts
            (make_digest sti opt specs x y z)
            ⟨sm, r0.descriptorset_layout, r0.pipeline_layout, r0.pipeline,
              r0.descriptor_update_template, si⟩ hf hlen
          simp only [hfind2]
    · simp only [hf] at hcall
      simp only [Prod.mk.injEq, Option.some.injEq] at hcall
      obtain ⟨hr, hst2, htr⟩ := hcall
      subst hr
      subst hst2
      simp only [hf]

/-- Witness for C4: a hit on a one-entry store returns the stored bundle
untouched; and after a successful build on an empty store, repeating the
identical request returns the same handles with no further creation. -/
theorem C4_witness :
    get_pipeline okDevice ⟨[make_digest 3 testOpt [] 8 8 1], [testArtifact]⟩
        3 testOpt [] 8 8 1
      = (some ⟨testArtifact.shader_module, testArtifact.descriptorset_layout,
          testArtifact.pipeline_layout, testArtifact.pipeline,
          testArtifact.descriptor_update_template, testArtifact.shader_info⟩,
          ⟨[make_digest 3 testOpt [] 8 8 1], [testArtifact]⟩, [])
    ∧ get_pipeline okDevice ⟨[make_digest 3 testOpt [5] 8 8 1], [testArtifact]⟩
        3 testOpt [5] 8 8 1
      = (some ⟨10, 11, 12, 13, 14, testShaderInfo⟩,
          ⟨[make_digest 3 testOpt [5] 8 8 1], [testArtifact]⟩, []) :=
  ⟨C4_cache_hit_idempotent.1 okDevice _ 3 testOpt [] 8 8 1 0 testArtifact rfl rfl
      (fun j hj => absurd hj (Nat.not_lt_zero j)),
    C4_cache_hit_idempotent.2 okDevice ⟨[], []⟩ 3 testOpt [5] 8 8 1
      ⟨10, 11, 12, 13, 14, testShaderInfo⟩
      ⟨[make_digest 3 testOpt [5] 8 8 1], [testArtifact]⟩
      [Event.createShaderModule 12, Event.createDescriptorSetLayout,
        Event.createPipelineLayout, Event.createPipeline,
        Event.createDescriptorUpdateTemplate] rfl (by decide)⟩

/-- Claim C3: a keyed request that misses the cache and whose build fails —
either shader-module creation fails (null module) or `new_pipeline` fails —
returns an error, leaves both store lists exactly as they were, and
destroys any shader module created during the failed attempt. -/
theorem C3_failed_miss_rolls_back :
    (∀ (vkdev : VulkanDevice) (st : PipelineCacheState) (sti : Int) (opt : Opt)
      (specs : List Nat) (x y z : Nat),
      find_cache st.cache_digests st.cache_artifacts
        (make_digest sti opt specs x y z) = none →
      vkdev.create_shader_module (selected_shader_type_index vkdev.info opt sti)
        x y z = 0 →
      get_pipeline vkdev st sti opt specs x y z
        = (none, st,
            [Event.createShaderModule
              (selected_shader_type_index vkdev.info opt sti)]))
    ∧ (∀ (vkdev : VulkanDevice) (st : PipelineCacheState) (sti : Int) (opt : Opt)
      (specs : List Nat) (x y z : Nat) (sm : Nat) (tr2 : List Event),
      find_cache st.cache_digests st.cache_artifacts
        (make_digest sti opt specs x y z) = none →
      vkdev.create_shader_module (selected_shader_type_index vkdev.info opt sti)
        x y z = sm →
      sm ≠ 0 →
      new_pipeline vkdev sm
        (vkdev.get_shader_info (selected_shader_type_index vkdev.info opt sti))
        specs = (none, tr2) →
      get_pipeline vkdev st sti opt specs x y z
        = (none, st,
            [Event.createShaderModule
                (selected_shader_type_index vkdev.info opt sti)]
              ++ tr2 ++ [Event.destroyShaderModule sm])) := by
  constructor
  · intro vkdev st sti opt specs x y z hmiss hsm0
    unfold get_pipeline
    simp only [hmiss]
    unfold create_shader_module
    simp only [hsm0]
    simp
  · intro vkdev st sti opt specs x y z sm tr2 hmiss hsm hne hnp
    unfold get_pipeline
    simp only [hmiss]
    unfold create_shader_module
    simp only [hsm, if_neg hne, hnp]

/-- Witness for C3: on `failSmDevice` shader-module creation fails and the
store is untouched; on `okDevice` with a specialization-count mismatch
`new_pipeline` fails and the module (handle 10) is destroyed, the store
again untouched. -/
theorem C3_witness :
    get_pipeline failSmDevice ⟨[], []⟩ 3 testOpt [] 8 8 1
      = (none, (⟨[], []⟩ : PipelineCacheState), [Event.createShaderModule 12])
    ∧ get_pipeline okDevice ⟨[], []⟩ 3 testOpt [] 8 8 1
      = (none, (⟨[], []⟩ : PipelineCacheState),
          [Event.createShaderModule 12] ++ [] ++ [Event.destroyShaderModule 10]) :=
  ⟨by
    have := C3_failed_miss_rolls_back.1 failSmDevice ⟨[], []⟩ 3 testOpt [] 8 8 1
      rfl rfl
    simpa using this,
    by
    have := C3_failed_miss_rolls_back.2 okDevice ⟨[], []⟩ 3 testOpt [] 8 8 1 10 []
      rfl rfl (by decide) (by decide)
    simpa using this⟩

/-- Claim C9: every public cache operation preserves the parallel-lists
invariant.  The keyed `get_pipeline` either leaves the store untouched or
appends exactly one (digest, artifact) pair at the end (so equal lengths
are preserved and existing entries are never mutated); the bytecode
`get_pipeline` never changes the store; `clear` empties both lists at
once. -/
theorem C9_store_invariant :
    (∀ (vkdev : VulkanDevice) (st : PipelineCacheState) (sti : Int) (opt : Opt)
      (specs : List Nat) (x y z : Nat),
      ((get_pipeline vkdev st sti opt specs x y z).2.1 = st
        ∨ ∃ key cc, (get_pipeline vkdev st sti opt specs x y z).2.1
            = ⟨st.cache_digests ++ [key], st.cache_artifacts ++ [cc]⟩)
      ∧ (st.cache_digests.length = st.cache_artifacts.length →
        (get_pipeline vkdev st sti opt specs x y z).2.1.cache_digests.length
          = (get_pipeline vkdev st sti opt specs x y z).2.1.cache_artifacts.length))
    ∧ (∀ (vkdev : VulkanDevice) (st : PipelineCacheState) (spv specs : List Nat)
      (x y z : Nat),
      (get_pipeline_spv vkdev st spv specs x y z).2.1 = st)
    ∧ (∀ (vkdev : VulkanDevice) (st : PipelineCacheState),
      (clear vkdev st).1 = (⟨[], []⟩ : PipelineCacheState)) := by
  refine ⟨fun vkdev st sti opt specs x y z => ?_,
    get_pipeline_spv_state_eq, fun vkdev st => rfl⟩
  have hd : (get_pipeline vkdev st sti opt specs x y z).2.1 = st
      ∨ ∃ key cc, (get_pipeline vkdev st sti opt specs x y z).2.1
          = ⟨st.cache_digests ++ [key], st.cache_artifacts ++ [cc]⟩ := by
    unfold get_pipeline
    rcases hf : find_cache st.cache_digests st.cache_artifacts
        (make_digest sti opt specs x y z) with _ | cc
    · rcases hcs : create_shader_module vkdev sti opt x y z with ⟨res1, tr1⟩
      cases res1 with
      | none => simp [hf, hcs]
      | some p =>
        obtain ⟨sm, si⟩ := p
        rcases hnp : new_pipeline vkdev sm si specs with ⟨res2, tr2⟩
        cases res2 with
        | none => simp [hf, hcs, hnp]
        | some r0 =>
          right
          refine ⟨make_digest sti opt specs x y z,
            ⟨sm, r0.descriptorset_layout, r0.pipeline_layout, r0.pipeline,
              r0.descriptor_update_template, si⟩, ?_⟩
          simp [hf, hcs, hnp]
    · simp [hf]
  refine ⟨hd, fun hlen => ?_⟩
  rcases hd with h | ⟨key, cc, h⟩ <;> rw [h] <;> simp [hlen]

/-- Witness for C9: the three operations on concrete states — a successful
keyed build on an empty store appends one pair and keeps the lengths
equal, the bytecode path leaves the store alone, and `clear` empties it. -/
theorem C9_witness :
    (((get_pipeline okDevice ⟨[], []⟩ 3 testOpt [5] 8 8 1).2.1
          = (⟨[], []⟩ : PipelineCacheState)
        ∨ ∃ key cc, (get_pipeline okDevice ⟨[], []⟩ 3 testOpt [5] 8 8 1).2.1
            = ⟨[] ++ [key], [] ++ [cc]⟩)
      ∧ (get_pipeline okDevice ⟨[], []⟩ 3 testOpt [5] 8 8 1).2.1.cache_digests.length
          = (get_pipeline okDevice ⟨[], []⟩ 3 testOpt [5] 8 8 1).2.1.cache_artifacts.length)
    ∧ (get_pipeline_spv okDevice ⟨[], []⟩ [1] [5] 8 8 1).2.1
        = (⟨[], []⟩ : PipelineCacheState)
    ∧ (clear okDevice ⟨[], []⟩).1 = (⟨[], []⟩ : PipelineCacheState) :=
  ⟨⟨(C9_store_invariant.1 okDevice ⟨[], []⟩ 3 testOpt [5] 8 8 1).1,
      (C9_store_invariant.1 okDevice ⟨[], []⟩ 3 testOpt [5] 8 8 1).2 rfl⟩,
    C9_store_invariant.2.1 okDevice ⟨[], []⟩ [1] [5] 8 8 1,
    C9_store_invariant.2.2 okDevice ⟨[], []⟩⟩

end NcnnPipelineCache
